import Mathlib

/-! Verification of the VoxelGame repository (a minimal wgpu/winit rendering
application).  The development shallowly embeds the application host of
`src/main.rs` and `src/window.rs`, together with the camera-controller update
algorithm of the specification, and proves the stated properties about them.

Vectors are modelled over the exact reals; machine floating point rounding is
abstracted away, which is the standard reading of the vector-arithmetic
contracts in the specification. -/

namespace VoxelGame

/-! ## Vector arithmetic (cgmath `Vector3`/`Point3` operations used by the
camera controller) -/

@[ext]
structure Vec3 where
  x : ℝ
  y : ℝ
  z : ℝ

instance : Add Vec3 := ⟨fun a b => ⟨a.x + b.x, a.y + b.y, a.z + b.z⟩⟩

instance : Sub Vec3 := ⟨fun a b => ⟨a.x - b.x, a.y - b.y, a.z - b.z⟩⟩

instance : SMul ℝ Vec3 := ⟨fun r v => ⟨r * v.x, r * v.y, r * v.z⟩⟩

/-- Euclidean inner product of two vectors. -/
def Vec3.dot (a b : Vec3) : ℝ := a.x * b.x + a.y * b.y + a.z * b.z

/-- Euclidean length (cgmath `magnitude`). -/
noncomputable def Vec3.length (v : Vec3) : ℝ := Real.sqrt (v.dot v)

/-- Unit vector in the direction of `v` (cgmath `normalize`); the zero vector
is sent to the zero vector (division by zero yields zero over ℝ). -/
noncomputable def Vec3.normalize (v : Vec3) : Vec3 := v.length⁻¹ • v

/-- Cross product. -/
def Vec3.cross (a b : Vec3) : Vec3 :=
  ⟨a.y * b.z - a.z * b.y, a.z * b.x - a.x * b.z, a.x * b.y - a.y * b.x⟩

/-! ## Camera model and controller

Modelled from the spec: `main.rs` declares `mod camera;` but the file
`camera.rs` is not among the sources; the `Camera`, `CameraController` and
their operations below follow §3 and §4.2 of the specification. -/

/-- Modelled from the spec: the Camera data of §3 (`camera.rs` is missing). -/
structure Camera where
  eye : Vec3
  target : Vec3
  up : Vec3
  aspect : ℝ
  fov : ℝ
  near : ℝ
  far : ℝ

/-- Modelled from the spec: the CameraController state of §3 — a movement
speed and the held-key flags (`camera.rs` is missing). -/
structure CameraController where
  speed : ℝ
  is_forward : Bool
  is_backward : Bool
  is_left : Bool
  is_right : Bool

/-- Modelled from the spec: `CameraController::new(speed)` creates the
controller with all movement flags clear (`camera.rs` is missing). -/
def CameraController.new (speed : ℝ) : CameraController :=
  ⟨speed, false, false, false, false⟩

/-- Modelled from the spec: the per-frame camera update of §4.2
(`camera.rs` is missing).  Step 2 moves forward only under the
`forward_len > speed` guard; step 3 moves backward unconditionally; steps 4–5
strafe along the normalized right vector, re-projecting the eye onto the
sphere of the post-forward/backward radius about the target. -/
noncomputable def CameraController.update_camera (c : CameraController) (cam : Camera) :
    Camera :=
  let forward := cam.target - cam.eye
  let forward_len := forward.length
  let forward_dir := forward.normalize
  let eye1 :=
    if c.is_forward = true ∧ forward_len > c.speed
    then cam.eye + c.speed • forward_dir else cam.eye
  let eye2 := if c.is_backward = true then eye1 - c.speed • forward_dir else eye1
  let right := (Vec3.cross forward_dir cam.up).normalize
  let forward2 := cam.target - eye2
  let forward_len2 := forward2.length
  let eye3 :=
    if c.is_right = true
    then cam.target - forward_len2 • (forward2 + c.speed • right).normalize else eye2
  let eye4 :=
    if c.is_left = true
    then cam.target - forward_len2 • (forward2 - c.speed • right).normalize else eye3
  { cam with eye := eye4 }

/-- The spec's §8 scenario camera: eye `(0, 1, 1.3)`, target at the origin. -/
def scenarioCamera : Camera :=
  { eye := ⟨0, 1, 1.3⟩, target := ⟨0, 0, 0⟩, up := ⟨0, 1, 0⟩,
    aspect := 1.2, fov := 70, near := 0.1, far := 1000 }

/-- The scenario controller: speed `0.2`, forward flag held. -/
def scenarioController : CameraController :=
  { speed := 0.2, is_forward := true, is_backward := false,
    is_left := false, is_right := false }

/-! ## Host data model (`src/window.rs` and the resource types of
`src/main.rs`)

GPU objects (device, queue, pipeline, buffers, bind groups, texture) are
opaque to `main.rs`; they are modelled by numeric handles.  A surface
additionally records the `configure` calls applied to it. -/

/-- `window::Window`: title, stored pixel size, and the id of the underlying
core window (`core_window.id()`). -/
structure Window where
  title : String
  size : ℕ × ℕ
  coreId : ℕ
deriving DecidableEq

/-- `window::Window::build`: stores the title and size and wraps the core
window created by the event loop (modelled by its id). -/
def Window.build (title : String) (size : ℕ × ℕ) (coreId : ℕ) : Window :=
  ⟨title, size, coreId⟩

/-- `wgpu::SurfaceConfiguration`, restricted to the fields `main.rs` reads or
writes; the externally chosen format/present/alpha modes are opaque handles. -/
structure SurfaceConfig where
  format : ℕ
  width : ℕ
  height : ℕ
  presentMode : ℕ
  alphaMode : ℕ
deriving DecidableEq

/-- A `wgpu::Surface`, modelled as a handle plus the list of
`surface.configure(device, config)` calls applied to it, newest first. -/
structure Surface where
  id : ℕ
  configured : List (ℕ × SurfaceConfig)
deriving DecidableEq

/-- `surface.configure(&device, &config)`. -/
def Surface.configure (s : Surface) (device : ℕ) (cfg : SurfaceConfig) : Surface :=
  { s with configured := (device, cfg) :: s.configured }

/-- The surface errors of `wgpu::SurfaceError` handled by `main.rs`. -/
inductive SurfaceError
  | timeout
  | outdated
  | lost
  | outOfMemory
deriving DecidableEq

/-- `wgpu::IndexFormat`. -/
inductive IndexFormat
  | uint16
  | uint32
deriving DecidableEq

/-- The physical keys `main.rs` distinguishes. -/
inductive Key
  | escape
  | otherKey
deriving DecidableEq

/-- `winit::event::ElementState`. -/
inductive KeyState
  | pressed
  | released
deriving DecidableEq

/-- The `winit::event::WindowEvent` variants `main.rs` matches on. -/
inductive WEvent
  | closeRequested
  | keyboardInput (state : KeyState) (key : Key)
  | resized (width height : ℕ)
  | redrawRequested
  | otherEvent
deriving DecidableEq

/-- Observable actions the host performs on the controller, the GPU queue,
the render pass and the event loop, in program order. -/
inductive Cmd
  | offerInput
  | requestRedraw
  | controllerUpdate
  | computeUniform
  | writeBuffer (buffer : ℕ)
  | setPipeline (pipeline : ℕ)
  | setBindGroup (slot group : ℕ)
  | setVertexBuffer (slot buffer : ℕ)
  | setIndexBuffer (buffer : ℕ) (format : IndexFormat)
  | drawIndexed (idxStart idxEnd baseVertex instStart instEnd : ℕ)
  | submit
  | present
  | exitLoop
  | logError (msg : String)
  | logWarn (msg : String)
deriving DecidableEq

/-- Whether a command is an indexed draw call. -/
def Cmd.isDraw : Cmd → Bool
  | .drawIndexed _ _ _ _ _ => true
  | _ => false

/-- The three observable steps of `App::update`, in order. -/
def updateTrace (buf : ℕ) : List Cmd :=
  [Cmd.controllerUpdate, Cmd.computeUniform, Cmd.writeBuffer buf]

/-- The full observable action sequence of a successful redraw: input
offering, redraw re-request, the `App::update` steps, then the render pass
with exactly one indexed draw. -/
def frameTrace (buf pl dbg cbg vb ib ni : ℕ) : List Cmd :=
  [Cmd.offerInput, Cmd.requestRedraw, Cmd.controllerUpdate, Cmd.computeUniform,
   Cmd.writeBuffer buf, Cmd.setPipeline pl, Cmd.setBindGroup 0 dbg,
   Cmd.setBindGroup 1 cbg, Cmd.setVertexBuffer 0 vb,
   Cmd.setIndexBuffer ib IndexFormat.uint16, Cmd.drawIndexed 0 ni 0 0 1,
   Cmd.submit, Cmd.present]

/-! ## Static mesh data (`VERTICES`, `INDICES`) -/

/-- The `Vertex` struct: a 3-float position followed by 2-float texture
coordinates.  Coordinate values are exact rationals (every literal in
`main.rs` is exactly representable). -/
structure Vertex where
  position : ℚ × ℚ × ℚ
  tex_coords : ℚ × ℚ
deriving DecidableEq

/-- Size in bytes of one `f32`. -/
def f32Size : ℕ := 4

/-- Size in bytes of `Vertex` under `repr(C)`: three `f32` for `position`
followed by two `f32` for `tex_coords`, no padding (alignment 4). -/
def Vertex.sizeBytes : ℕ := 3 * f32Size + 2 * f32Size

/-- `wgpu::VertexFormat`, restricted to the formats used. -/
inductive VertexFormat
  | float32x2
  | float32x3
deriving DecidableEq

/-- Byte size of a vertex format. -/
def VertexFormat.size : VertexFormat → ℕ
  | .float32x2 => 2 * f32Size
  | .float32x3 => 3 * f32Size

/-- `wgpu::VertexAttribute`. -/
structure VertexAttribute where
  format : VertexFormat
  offset : ℕ
  shaderLocation : ℕ
deriving DecidableEq

/-- `Vertex::ATTRIBS = wgpu::vertex_attr_array![0 => Float32x3, 1 => Float32x2]`:
location 0 at offset 0, location 1 at the accumulated offset of the previous
format. -/
def Vertex.ATTRIBS : List VertexAttribute :=
  [⟨.float32x3, 0, 0⟩, ⟨.float32x2, VertexFormat.size .float32x3, 1⟩]

/-- `wgpu::VertexStepMode`. -/
inductive VertexStepMode
  | vertex
  | instanceStep
deriving DecidableEq

/-- `wgpu::VertexBufferLayout`. -/
structure VertexBufferLayout where
  array_stride : ℕ
  step_mode : VertexStepMode
  attributes : List VertexAttribute
deriving DecidableEq

/-- `Vertex::desc()`. -/
def Vertex.desc : VertexBufferLayout :=
  { array_stride := Vertex.sizeBytes, step_mode := .vertex, attributes := Vertex.ATTRIBS }

/-- The static cube vertex list `VERTICES` of `main.rs`. -/
def VERTICES : List Vertex := [
  ⟨(0, 0.5, 0), (1, 0)⟩,
  ⟨(-0.5, 0.5, 0), (0, 0)⟩,
  ⟨(-0.5, -0.5, 0), (0, 1)⟩,
  ⟨(0, -0.5, 0), (1, 1)⟩,
  ⟨(0, 0.5, -0.5), (1, 0)⟩,
  ⟨(0, 0.5, 0), (0, 0)⟩,
  ⟨(0, -0.5, 0), (0, 1)⟩,
  ⟨(0, -0.5, -0.5), (1, 1)⟩,
  ⟨(0, -0.5, -0.5), (1, 1)⟩,
  ⟨(-0.5, -0.5, -0.5), (0, 1)⟩,
  ⟨(-0.5, 0.5, -0.5), (0, 0)⟩,
  ⟨(0, 0.5, -0.5), (1, 0)⟩,
  ⟨(-0.5, 0.5, 0), (1, 0)⟩,
  ⟨(-0.5, 0.5, -0.5), (0, 0)⟩,
  ⟨(-0.5, -0.5, -0.5), (0, 1)⟩,
  ⟨(-0.5, -0.5, 0), (1, 1)⟩,
  ⟨(0, 0.5, 0), (1, 0)⟩,
  ⟨(0, 0.5, -0.5), (0, 0)⟩,
  ⟨(-0.5, 0.5, -0.5), (0, 1)⟩,
  ⟨(-0.5, 0.5, 0), (1, 1)⟩,
  ⟨(0, -0.5, 0), (1, 0)⟩,
  ⟨(-0.5, -0.5, 0), (0, 0)⟩,
  ⟨(-0.5, -0.5, -0.5), (0, 1)⟩,
  ⟨(0, -0.5, -0.5), (1, 1)⟩]

/-- The static index list `INDICES` of `main.rs` (`&[u16]`; values are the
mathematical integers of the 16-bit literals). -/
def INDICES : List ℕ := [
  0, 1, 2,
  2, 3, 0,
  4, 5, 6,
  6, 7, 4,
  8, 9, 10,
  10, 11, 8,
  12, 13, 14,
  14, 15, 12,
  16, 17, 18,
  18, 19, 16,
  20, 21, 22,
  22, 23, 20]

/-! ## The application host (`App` of `src/main.rs`)

`main.rs` declares `mod camera;` but `camera.rs` is not among the sources, so
the host is parametric in the controller, camera and uniform types; the three
operations the host invokes on them are supplied as a record of functions.
Rust `unwrap()` panics and other panics are modelled by `Option`: a result of
`none` is a panic. -/

/-- The operations of the missing `camera` module as used by `main.rs`:
`process_events` (mutates the controller, returns whether the event was
consumed), `update_camera` (mutates the camera) and `update_view_proj`
(recomputes the uniform from the camera). -/
structure CameraOps (CtrlT CamT UniT : Type) where
  process_events : CtrlT → WEvent → CtrlT × Bool
  update_camera : CtrlT → CamT → CamT
  update_view_proj : UniT → CamT → UniT

/-- The `App` struct of `main.rs`: every resource is an `Option`.  The extra
field `cameraBufferData` models the GPU-side contents of the camera buffer
(what `queue.write_buffer` last wrote, or the creation-time contents). -/
structure App (CtrlT CamT UniT : Type) where
  surface : Option Surface
  device : Option ℕ
  queue : Option ℕ
  config : Option SurfaceConfig
  render_pipeline : Option ℕ
  camera : Option CamT
  camera_uniform : Option UniT
  camera_buffer : Option ℕ
  camera_bind_group : Option ℕ
  camera_controller : Option CtrlT
  vertex_buffer : Option ℕ
  num_vertices : Option ℕ
  index_buffer : Option ℕ
  num_indices : Option ℕ
  diffuse_bind_group : Option ℕ
  diffuse_texture : Option ℕ
  window : Option Window
  cameraBufferData : Option UniT
deriving DecidableEq

variable {CtrlT CamT UniT : Type}

/-- `App::init()`: every field `None`. -/
def App.init : App CtrlT CamT UniT :=
  { surface := none, device := none, queue := none, config := none,
    render_pipeline := none, camera := none, camera_uniform := none,
    camera_buffer := none, camera_bind_group := none, camera_controller := none,
    vertex_buffer := none, num_vertices := none, index_buffer := none,
    num_indices := none, diffuse_bind_group := none, diffuse_texture := none,
    window := none, cameraBufferData := none }

/-- `App::input`: forwards the event to
`camera_controller.as_mut().unwrap().process_events`, returning the updated
state and the consumed flag (`none` models the unwrap panic). -/
def App.input (ops : CameraOps CtrlT CamT UniT) (a : App CtrlT CamT UniT)
    (event : WEvent) : Option (App CtrlT CamT UniT × Bool) :=
  match a.camera_controller with
  | none => none
  | some ctrl =>
    let r := ops.process_events ctrl event
    some ({ a with camera_controller := some r.1 }, r.2)

/-- `App::resize`: under the `width > 0 && height > 0` guard, stores the new
size in the window, updates the configuration's width/height if present, and
reconfigures the surface if present (unwrapping device and config). -/
def App.resize (a : App CtrlT CamT UniT) (new_size : ℕ × ℕ) :
    Option (App CtrlT CamT UniT) :=
  if 0 < new_size.1 ∧ 0 < new_size.2 then
    match a.window with
    | none => none
    | some w =>
      let a1 := { a with window := some { w with size := new_size } }
      let a2 :=
        match a1.config with
        | none => a1
        | some cfg =>
          { a1 with config := some { cfg with width := new_size.1, height := new_size.2 } }
      match a2.surface with
      | none => some a2
      | some s =>
        match a2.device, a2.config with
        | some d, some cfg => some { a2 with surface := some (s.configure d cfg) }
        | _, _ => none
  else
    some a

/-- `App::update`: controller update on the camera, uniform recomputation from
the updated camera, upload of the uniform to the camera buffer. -/
def App.update (ops : CameraOps CtrlT CamT UniT) (a : App CtrlT CamT UniT) :
    Option (App CtrlT CamT UniT × List Cmd) :=
  match a.camera_controller, a.camera with
  | some ctrl, some cam =>
    let cam2 := ops.update_camera ctrl cam
    let a1 := { a with camera := some cam2 }
    match a1.camera_uniform with
    | none => none
    | some uni =>
      let uni2 := ops.update_view_proj uni cam2
      let a2 := { a1 with camera_uniform := some uni2 }
      match a2.queue, a2.camera_buffer with
      | some _, some buf =>
        some ({ a2 with cameraBufferData := some uni2 },
          [Cmd.controllerUpdate, Cmd.computeUniform, Cmd.writeBuffer buf])
      | _, _ => none
  | _, _ => none

/-- `App::render`: acquires the current surface texture (`acquire` is its
result, the `?` operator propagates the error), then records one render pass:
pipeline, texture bind group at slot 0, camera bind group at slot 1, vertex
buffer, 16-bit index buffer, one indexed draw over `0..num_indices`, submit,
present. -/
def App.render (a : App CtrlT CamT UniT) (acquire : Except SurfaceError Unit) :
    Option (Except SurfaceError (App CtrlT CamT UniT × List Cmd)) :=
  match a.surface with
  | none => none
  | some _ =>
    match acquire with
    | .error e => some (.error e)
    | .ok _ =>
      match a.device with
      | none => none
      | some _ =>
        match a.render_pipeline, a.diffuse_bind_group, a.camera_bind_group,
            a.vertex_buffer, a.index_buffer, a.num_indices with
        | some pl, some dbg, some cbg, some vb, some ib, some ni =>
          match a.queue with
          | none => none
          | some _ =>
            some (.ok (a,
              [Cmd.setPipeline pl, Cmd.setBindGroup 0 dbg, Cmd.setBindGroup 1 cbg,
               Cmd.setVertexBuffer 0 vb, Cmd.setIndexBuffer ib IndexFormat.uint16,
               Cmd.drawIndexed 0 ni 0 0 1, Cmd.submit, Cmd.present]))
        | _, _, _, _, _, _ => none

/-- The app state after `input` stored the controller `ctrl'` and `update`
ran on camera `cam` and uniform `uni`: the camera holds the controller-updated
value, the uniform its recomputation from that camera, and the GPU-side camera
buffer the uploaded uniform. -/
def postUpdate (ops : CameraOps CtrlT CamT UniT) (a : App CtrlT CamT UniT)
    (ctrl' : CtrlT) (cam : CamT) (uni : UniT) : App CtrlT CamT UniT :=
  { a with
    camera_controller := some ctrl'
    camera := some (ops.update_camera ctrl' cam)
    camera_uniform := some (ops.update_view_proj uni (ops.update_camera ctrl' cam))
    cameraBufferData := some (ops.update_view_proj uni (ops.update_camera ctrl' cam)) }

/-- The externally produced resources consumed by `App::resumed` (GPU objects
and the values built by the missing `camera` module). -/
structure Resources (CtrlT CamT UniT : Type) where
  surface : Surface
  device : ℕ
  queue : ℕ
  surfaceFormat : ℕ
  presentMode : ℕ
  alphaMode : ℕ
  render_pipeline : ℕ
  camera : CamT
  camera_uniform : UniT
  camera_buffer : ℕ
  camera_bind_group : ℕ
  camera_controller : CtrlT
  vertex_buffer : ℕ
  index_buffer : ℕ
  diffuse_bind_group : ℕ
  diffuse_texture : ℕ
  windowCoreId : ℕ

/-- `App::resumed` (`ApplicationHandler`): builds the 720×600 "Voxel Game"
window, the surface configuration from the window size, and stores every
resource as `Some`; the camera buffer is created holding the freshly computed
uniform, and the vertex/index counts are the lengths of `VERTICES` and
`INDICES`. -/
def App.resumed (_a : App CtrlT CamT UniT) (r : Resources CtrlT CamT UniT) :
    App CtrlT CamT UniT :=
  let w := Window.build "Voxel Game" (720, 600) r.windowCoreId
  let cfg : SurfaceConfig :=
    { format := r.surfaceFormat, width := w.size.1, height := w.size.2,
      presentMode := r.presentMode, alphaMode := r.alphaMode }
  { surface := some r.surface, device := some r.device, queue := some r.queue,
    config := some cfg, render_pipeline := some r.render_pipeline,
    camera := some r.camera, camera_uniform := some r.camera_uniform,
    camera_buffer := some r.camera_buffer,
    camera_bind_group := some r.camera_bind_group,
    camera_controller := some r.camera_controller,
    vertex_buffer := some r.vertex_buffer, num_vertices := some VERTICES.length,
    index_buffer := some r.index_buffer, num_indices := some INDICES.length,
    diffuse_bind_group := some r.diffuse_bind_group,
    diffuse_texture := some r.diffuse_texture,
    window := some w, cameraBufferData := some r.camera_uniform }

/-- `App::window_event` (`ApplicationHandler`): events whose id matches the
app window are first offered to `input`; unconsumed events are then matched:
close / escape-press exits the loop, resize calls `resize`, redraw requests
another redraw, runs `update`, then `render` with the error taxonomy of
`main.rs`.  Events for other windows fall through to `_ => ()`. -/
def App.window_event (ops : CameraOps CtrlT CamT UniT)
    (acquire : Except SurfaceError Unit) (a : App CtrlT CamT UniT)
    (window_id : ℕ) (event : WEvent) : Option (App CtrlT CamT UniT × List Cmd) :=
  match a.window with
  | none => none
  | some w =>
    if window_id = w.coreId then
      match App.input ops a event with
      | none => none
      | some (a1, consumed) =>
        let handled : Option (App CtrlT CamT UniT × List Cmd) :=
          if consumed then some (a1, [])
          else
            match event with
            | .closeRequested => some (a1, [Cmd.exitLoop])
            | .keyboardInput .pressed .escape => some (a1, [Cmd.exitLoop])
            | .resized width height =>
              match a1.resize (width, height) with
              | none => none
              | some a2 => some (a2, [])
            | .redrawRequested =>
              match a1.window with
              | none => none
              | some _ =>
                match App.update ops a1 with
                | none => none
                | some (a2, tr) =>
                  match App.render a2 acquire with
                  | none => none
                  | some (.ok (a3, tr2)) => some (a3, Cmd.requestRedraw :: (tr ++ tr2))
                  | some (.error e) =>
                    match e with
                    | .lost | .outdated =>
                      match a2.window with
                      | none => none
                      | some w2 =>
                        match a2.resize w2.size with
                        | none => none
                        | some a3 => some (a3, Cmd.requestRedraw :: tr)
                    | .outOfMemory =>
                      some (a2, Cmd.requestRedraw ::
                        (tr ++ [Cmd.logError "Out of memory!", Cmd.exitLoop]))
                    | .timeout =>
                      some (a2, Cmd.requestRedraw :: (tr ++ [Cmd.logWarn "Surface Timout!"]))
            | _ => some (a1, [])
        handled.map (fun p => (p.1, Cmd.offerInput :: p.2))
    else
      some (a, [])

/-- All seventeen optional resource fields of `App` are populated (the
invariant holding from `resumed` onward). -/
def App.allSome (a : App CtrlT CamT UniT) : Prop :=
  a.surface.isSome = true ∧ a.device.isSome = true ∧ a.queue.isSome = true ∧
  a.config.isSome = true ∧ a.render_pipeline.isSome = true ∧
  a.camera.isSome = true ∧ a.camera_uniform.isSome = true ∧
  a.camera_buffer.isSome = true ∧ a.camera_bind_group.isSome = true ∧
  a.camera_controller.isSome = true ∧ a.vertex_buffer.isSome = true ∧
  a.num_vertices.isSome = true ∧ a.index_buffer.isSome = true ∧
  a.num_indices.isSome = true ∧ a.diffuse_bind_group.isSome = true ∧
  a.diffuse_texture.isSome = true ∧ a.window.isSome = true

/-- Concrete camera operations over numeric stand-in types, used to evaluate
the host model on closed inputs: processing an event bumps the controller and
consumes exactly `otherEvent`. -/
def witOps : CameraOps ℕ ℕ ℕ :=
  { process_events := fun c e => (c + 1, e == WEvent.otherEvent),
    update_camera := fun c cam => cam + c,
    update_view_proj := fun u cam => u + cam + 1 }

/-- Concrete resources for evaluating the host model on closed inputs. -/
def witResources : Resources ℕ ℕ ℕ :=
  { surface := ⟨1, []⟩, device := 2, queue := 3, surfaceFormat := 4,
    presentMode := 5, alphaMode := 6, render_pipeline := 7, camera := 8,
    camera_uniform := 9, camera_buffer := 10, camera_bind_group := 11,
    camera_controller := 12, vertex_buffer := 13, index_buffer := 14,
    diffuse_bind_group := 15, diffuse_texture := 16, windowCoreId := 17 }

/-- The post-startup app state over the concrete resources. -/
def witApp : App ℕ ℕ ℕ := App.init.resumed witResources

/-! ## Vector lemmas -/

@[simp] theorem Vec3.add_x (a b : Vec3) : (a + b).x = a.x + b.x := rfl

@[simp] theorem Vec3.add_y (a b : Vec3) : (a + b).y = a.y + b.y := rfl

@[simp] theorem Vec3.add_z (a b : Vec3) : (a + b).z = a.z + b.z := rfl

@[simp] theorem Vec3.sub_x (a b : Vec3) : (a - b).x = a.x - b.x := rfl

@[simp] theorem Vec3.sub_y (a b : Vec3) : (a - b).y = a.y - b.y := rfl

@[simp] theorem Vec3.sub_z (a b : Vec3) : (a - b).z = a.z - b.z := rfl

@[simp] theorem Vec3.smul_x (r : ℝ) (v : Vec3) : (r • v).x = r * v.x := rfl

@[simp] theorem Vec3.smul_y (r : ℝ) (v : Vec3) : (r • v).y = r * v.y := rfl

@[simp] theorem Vec3.smul_z (r : ℝ) (v : Vec3) : (r • v).z = r * v.z := rfl

theorem Vec3.length_nonneg (v : Vec3) : 0 ≤ v.length := Real.sqrt_nonneg _

theorem Vec3.length_smul (r : ℝ) (v : Vec3) : (r • v).length = |r| * v.length := by
  unfold Vec3.length Vec3.dot
  simp only [Vec3.smul_x, Vec3.smul_y, Vec3.smul_z]
  rw [show r * v.x * (r * v.x) + r * v.y * (r * v.y) + r * v.z * (r * v.z)
        = r ^ 2 * (v.x * v.x + v.y * v.y + v.z * v.z) by ring]
  rw [Real.sqrt_mul (sq_nonneg r), Real.sqrt_sq_eq_abs]

theorem scenario_length_gt_speed :
    (scenarioCamera.target - scenarioCamera.eye).length > scenarioController.speed := by
  show (scenarioCamera.target - scenarioCamera.eye).length > 0.2
  unfold Vec3.length Vec3.dot scenarioCamera
  rw [show ((⟨0, 0, 0⟩ : Vec3) - ⟨0, 1, 1.3⟩).x = 0 by norm_num [Vec3.sub_x],
    show ((⟨0, 0, 0⟩ : Vec3) - ⟨0, 1, 1.3⟩).y = -1 by norm_num [Vec3.sub_y],
    show ((⟨0, 0, 0⟩ : Vec3) - ⟨0, 1, 1.3⟩).z = -1.3 by norm_num [Vec3.sub_z]]
  rw [show ((0 : ℝ) * 0 + -1 * -1 + -1.3 * -1.3) = 2.69 by norm_num]
  rw [show (0.2 : ℝ) = Real.sqrt (0.04) by
    rw [show (0.04 : ℝ) = 0.2 ^ 2 by norm_num, Real.sqrt_sq (by norm_num)]]
  exact Real.sqrt_lt_sqrt (by norm_num) (by norm_num)

/-! ## Claim C1 -/

/-- C1: with only the forward flag set, `update_camera` moves the eye by
exactly `speed` along the normalized `target - eye` direction when
`length (target - eye) > speed` (so, for a nonnegative speed, the distance to
the target decreases by exactly `speed` and the eye never crosses through or
past the target), and leaves the eye unchanged when
`length (target - eye) ≤ speed`. -/
theorem controller_forward_clamped (c : CameraController) (cam : Camera)
    (hf : c.is_forward = true) (hb : c.is_backward = false)
    (hl : c.is_left = false) (hr : c.is_right = false) :
    ((cam.target - cam.eye).length > c.speed →
      (c.update_camera cam).eye
        = cam.eye + c.speed • (cam.target - cam.eye).normalize) ∧
    ((cam.target - cam.eye).length > c.speed → 0 ≤ c.speed →
      (cam.target - (c.update_camera cam).eye).length
        = (cam.target - cam.eye).length - c.speed) ∧
    ((cam.target - cam.eye).length ≤ c.speed →
      (c.update_camera cam).eye = cam.eye) := by
  have hupdate : (c.update_camera cam).eye
      = if (cam.target - cam.eye).length > c.speed
        then cam.eye + c.speed • (cam.target - cam.eye).normalize else cam.eye := by
    unfold CameraController.update_camera
    simp [hf, hb, hl, hr]
  refine ⟨fun h => by rw [hupdate, if_pos h], fun h hs => ?_, fun h => by
    rw [hupdate, if_neg (not_lt.2 h)]⟩
  rw [hupdate, if_pos h]
  have hL : 0 < (cam.target - cam.eye).length := lt_of_le_of_lt hs h
  have hkey : cam.target - (cam.eye + c.speed • (cam.target - cam.eye).normalize)
      = (1 - c.speed * ((cam.target - cam.eye).length)⁻¹) • (cam.target - cam.eye) := by
    unfold Vec3.normalize
    ext <;> simp <;> ring
  rw [hkey, Vec3.length_smul]
  have hcoef : 0 ≤ 1 - c.speed * ((cam.target - cam.eye).length)⁻¹ := by
    have : c.speed * ((cam.target - cam.eye).length)⁻¹ ≤ 1 := by
      rw [← div_eq_mul_inv, div_le_one hL]
      exact le_of_lt h
    linarith
  rw [abs_of_nonneg hcoef]
  field_simp

/-- Witness for C1 at the spec's §8 scenario: the distance exceeds the speed,
and one update moves the eye by exactly `speed` along the forward direction. -/
theorem controller_forward_clamped_witness :
    (scenarioCamera.target - scenarioCamera.eye).length > scenarioController.speed ∧
    (scenarioController.update_camera scenarioCamera).eye
      = scenarioCamera.eye
        + scenarioController.speed • (scenarioCamera.target - scenarioCamera.eye).normalize ∧
    (scenarioCamera.target - (scenarioController.update_camera scenarioCamera).eye).length
      = (scenarioCamera.target - scenarioCamera.eye).length - scenarioController.speed :=
  ⟨scenario_length_gt_speed,
    (controller_forward_clamped scenarioController scenarioCamera rfl rfl rfl rfl).1
      scenario_length_gt_speed,
    (controller_forward_clamped scenarioController scenarioCamera rfl rfl rfl rfl).2.1
      scenario_length_gt_speed (by norm_num [scenarioController])⟩

/-! ## Host helper lemmas -/

theorem resize_degenerate_eq (a : App CtrlT CamT UniT) (new_size : ℕ × ℕ)
    (h : new_size.1 = 0 ∨ new_size.2 = 0) :
    a.resize new_size = some a := by
  unfold App.resize
  rcases h with h | h <;> rw [if_neg] <;> simp [h]

theorem resize_positive_eq (a : App CtrlT CamT UniT) (w : Window)
    (cfg : SurfaceConfig) (s : Surface) (d : ℕ) (width height : ℕ)
    (hwidth : 0 < width) (hheight : 0 < height)
    (hw : a.window = some w) (hcfg : a.config = some cfg)
    (hs : a.surface = some s) (hd : a.device = some d) :
    a.resize (width, height)
      = some { a with
          window := some { w with size := (width, height) }
          config := some { cfg with width := width, height := height }
          surface := some (s.configure d { cfg with width := width, height := height }) } := by
  unfold App.resize
  rw [if_pos ⟨hwidth, hheight⟩, hw]
  simp [hcfg, hs, hd]

theorem update_eq (ops : CameraOps CtrlT CamT UniT) (a : App CtrlT CamT UniT)
    (ctrl : CtrlT) (cam : CamT) (uni : UniT) (q buf : ℕ)
    (hctrl : a.camera_controller = some ctrl) (hcam : a.camera = some cam)
    (huni : a.camera_uniform = some uni) (hq : a.queue = some q)
    (hbuf : a.camera_buffer = some buf) :
    App.update ops a
      = some ({ a with
          camera := some (ops.update_camera ctrl cam)
          camera_uniform := some (ops.update_view_proj uni (ops.update_camera ctrl cam))
          cameraBufferData := some (ops.update_view_proj uni (ops.update_camera ctrl cam)) },
        [Cmd.controllerUpdate, Cmd.computeUniform, Cmd.writeBuffer buf]) := by
  unfold App.update
  rw [hctrl, hcam]
  simp [huni, hq, hbuf]

theorem update_after_input_eq (ops : CameraOps CtrlT CamT UniT)
    (a : App CtrlT CamT UniT) (ctrl' : CtrlT) (cam : CamT) (uni : UniT) (q buf : ℕ)
    (hcam : a.camera = some cam) (huni : a.camera_uniform = some uni)
    (hq : a.queue = some q) (hbuf : a.camera_buffer = some buf) :
    App.update ops { a with camera_controller := some ctrl' }
      = some (postUpdate ops a ctrl' cam uni, updateTrace buf) := by
  rw [update_eq ops { a with camera_controller := some ctrl' } ctrl' cam uni q buf
    rfl hcam huni hq hbuf]
  rfl

theorem render_ok_eq (a : App CtrlT CamT UniT) (s : Surface) (d q : ℕ)
    (pl dbg cbg vb ib ni : ℕ)
    (hs : a.surface = some s) (hd : a.device = some d) (hq : a.queue = some q)
    (hpl : a.render_pipeline = some pl) (hdbg : a.diffuse_bind_group = some dbg)
    (hcbg : a.camera_bind_group = some cbg) (hvb : a.vertex_buffer = some vb)
    (hib : a.index_buffer = some ib) (hni : a.num_indices = some ni) :
    App.render a (Except.ok ())
      = some (Except.ok (a,
          [Cmd.setPipeline pl, Cmd.setBindGroup 0 dbg, Cmd.setBindGroup 1 cbg,
           Cmd.setVertexBuffer 0 vb, Cmd.setIndexBuffer ib IndexFormat.uint16,
           Cmd.drawIndexed 0 ni 0 0 1, Cmd.submit, Cmd.present])) := by
  unfold App.render
  rw [hs]
  simp [hd, hq, hpl, hdbg, hcbg, hvb, hib, hni]

theorem render_error_eq (a : App CtrlT CamT UniT) (s : Surface) (e : SurfaceError)
    (hs : a.surface = some s) :
    App.render a (Except.error e) = some (Except.error e) := by
  unfold App.render
  rw [hs]

theorem resize_controller_eq (a a' : App CtrlT CamT UniT) (sz : ℕ × ℕ)
    (h : a.resize sz = some a') : a'.camera_controller = a.camera_controller := by
  unfold App.resize at h
  by_cases hp : 0 < sz.1 ∧ 0 < sz.2
  · rw [if_pos hp] at h
    rcases hw : a.window with _ | w <;> rw [hw] at h
    · exact absurd h (by simp)
    · simp only [] at h
      rcases hd : a.device with _ | d <;>
        rcases hc : a.config with _ | cfg <;>
        rcases hs : a.surface with _ | s <;>
        rw [hd, hc, hs] at h <;> simp only [] at h <;>
        first
          | (injection h with h1; subst h1; rfl)
          | injection h
  · rw [if_neg hp] at h
    injection h with h1
    subst h1
    rfl

theorem update_controller_eq (ops : CameraOps CtrlT CamT UniT)
    (a a' : App CtrlT CamT UniT) (tr : List Cmd)
    (h : App.update ops a = some (a', tr)) :
    a'.camera_controller = a.camera_controller := by
  unfold App.update at h
  rcases hctrl : a.camera_controller with _ | ctrl <;>
    rcases hcam : a.camera with _ | cam <;>
    rw [hctrl, hcam] at h <;> simp only [] at h
  · exact absurd h (by simp)
  · exact absurd h (by simp)
  · exact absurd h (by simp)
  · rcases huni : a.camera_uniform with _ | uni <;> rw [huni] at h <;>
      simp only [] at h
    · exact absurd h (by simp)
    · rcases hq : a.queue with _ | q <;>
        rcases hbuf : a.camera_buffer with _ | buf <;>
        rw [hq, hbuf] at h <;> simp only [] at h <;>
        first
          | (injection h with h1; injection h1 with h2 h3; subst h2; rfl)
          | injection h

theorem render_ok_state_eq (a a' : App CtrlT CamT UniT)
    (acquire : Except SurfaceError Unit) (tr : List Cmd)
    (h : App.render a acquire = some (Except.ok (a', tr))) : a' = a := by
  unfold App.render at h
  rcases hs : a.surface with _ | s <;> rw [hs] at h
  · exact absurd h (by simp)
  · rcases acquire with e | u
    · simp at h
    · rcases hd : a.device with _ | d <;> rw [hd] at h
      · exact absurd h (by simp)
      · rcases hpl : a.render_pipeline with _ | pl <;>
          rcases hdbg : a.diffuse_bind_group with _ | dbg <;>
          rw [hpl, hdbg] at h <;> simp only [] at h
        · exact absurd h (by simp)
        · exact absurd h (by simp)
        · exact absurd h (by simp)
        · rcases hcbg : a.camera_bind_group with _ | cbg <;>
            rcases hvb : a.vertex_buffer with _ | vb <;>
            rcases hib : a.index_buffer with _ | ib <;>
            rcases hni : a.num_indices with _ | ni <;>
            rw [hcbg, hvb, hib, hni] at h <;> simp only [] at h <;>
            first
              | (rcases hq : a.queue with _ | q <;> rw [hq] at h <;>
                  simp only [] at h <;>
                  first
                    | (injection h with h1; injection h1 with h2;
                       injection h2 with h3 h4; subst h3; rfl)
                    | injection h)
              | injection h

/-! ## Claim C2 -/

/-- C2: a resize whose new width or height is zero leaves the whole `App`
state — in particular the stored window size, the stored surface
configuration and the surface — unchanged, and is not an error (no panic). -/
theorem resize_degenerate_noop (a : App CtrlT CamT UniT) (new_size : ℕ × ℕ)
    (h : new_size.1 = 0 ∨ new_size.2 = 0) :
    a.resize new_size = some a :=
  resize_degenerate_eq a new_size h

/-- Witness for C2: resizing the post-startup state to width 0 is the
identity. -/
theorem resize_degenerate_noop_witness : witApp.resize (0, 600) = some witApp :=
  resize_degenerate_noop witApp (0, 600) (Or.inl rfl)

/-! ## Claim C6 -/

/-- C6: a resize with positive width and height stores the new size in the
window, sets the configuration's width and height to the same values, and
reconfigures the surface with that updated configuration. -/
theorem resize_positive_updates (a : App CtrlT CamT UniT) (w : Window)
    (cfg : SurfaceConfig) (s : Surface) (d : ℕ) (width height : ℕ)
    (hwidth : 0 < width) (hheight : 0 < height)
    (hw : a.window = some w) (hcfg : a.config = some cfg)
    (hs : a.surface = some s) (hd : a.device = some d) :
    a.resize (width, height)
      = some { a with
          window := some { w with size := (width, height) }
          config := some { cfg with width := width, height := height }
          surface := some (s.configure d { cfg with width := width, height := height }) } :=
  resize_positive_eq a w cfg s d width height hwidth hheight hw hcfg hs hd

/-- Witness for C6: resizing the post-startup state to 800×640 stores the
size, rewrites the configuration and reconfigures the surface with it. -/
theorem resize_positive_updates_witness :
    witApp.resize (800, 640)
      = some { witApp with
          window := some ⟨"Voxel Game", (800, 640), 17⟩,
          config := some ⟨4, 800, 640, 5, 6⟩,
          surface := some ⟨1, [(2, ⟨4, 800, 640, 5, 6⟩)]⟩ } :=
  resize_positive_updates witApp ⟨"Voxel Game", (720, 600), 17⟩ ⟨4, 720, 600, 5, 6⟩
    ⟨1, []⟩ 2 800 640 (by decide) (by decide) rfl rfl rfl rfl

/-! ## Claim C9 -/

/-- C9: `INDICES` has exactly 36 elements, a multiple of three, and every
element is strictly below `VERTICES.length = 24`, so the indexed draw over
`0..num_indices` references only valid vertices and forms whole triangles. -/
theorem indices_in_bounds :
    INDICES.length = 36 ∧ INDICES.length % 3 = 0 ∧ VERTICES.length = 24 ∧
    ∀ i ∈ INDICES, i < VERTICES.length := by
  refine ⟨rfl, rfl, rfl, ?_⟩
  decide

/-! ## Claim C10 -/

/-- C10: a window event carrying an id different from the app window's id is
ignored entirely: the controller is not consulted, no handler runs, and the
state is returned unchanged with no observable action. -/
theorem window_event_other_window (ops : CameraOps CtrlT CamT UniT)
    (acquire : Except SurfaceError Unit) (a : App CtrlT CamT UniT)
    (w : Window) (window_id : ℕ) (event : WEvent)
    (hw : a.window = some w) (hne : window_id ≠ w.coreId) :
    App.window_event ops acquire a window_id event = some (a, []) := by
  unfold App.window_event
  rw [hw]
  simp [hne]

/-- Witness for C10: a close request for a foreign window id leaves the
post-startup state untouched. -/
theorem window_event_other_window_witness :
    App.window_event witOps (Except.ok ()) witApp 99 WEvent.closeRequested
      = some (witApp, []) :=
  window_event_other_window witOps (Except.ok ()) witApp
    ⟨"Voxel Game", (720, 600), 17⟩ 99 WEvent.closeRequested rfl (by decide)

/-! ## Claim C3 -/

/-- C3 (amended): on an unconsumed `RedrawRequested` event for the app
window, when acquiring the surface texture succeeds, the host performs in
order: controller update on the camera, recomputation of the uniform from the
updated camera, upload of that uniform to the camera buffer, then the render
pass containing exactly one indexed draw with the static buffers, the texture
bind group and the camera bind group. -/
theorem redraw_frame_sequence (ops : CameraOps CtrlT CamT UniT)
    (a : App CtrlT CamT UniT) (w : Window) (ctrl ctrl' : CtrlT) (cam : CamT)
    (uni : UniT) (q buf : ℕ) (s : Surface) (d pl dbg cbg vb ib ni : ℕ)
    (hw : a.window = some w)
    (hctrl : a.camera_controller = some ctrl)
    (hpe : ops.process_events ctrl WEvent.redrawRequested = (ctrl', false))
    (hcam : a.camera = some cam) (huni : a.camera_uniform = some uni)
    (hq : a.queue = some q) (hbuf : a.camera_buffer = some buf)
    (hs : a.surface = some s) (hd : a.device = some d)
    (hpl : a.render_pipeline = some pl) (hdbg : a.diffuse_bind_group = some dbg)
    (hcbg : a.camera_bind_group = some cbg) (hvb : a.vertex_buffer = some vb)
    (hib : a.index_buffer = some ib) (hni : a.num_indices = some ni) :
    App.window_event ops (Except.ok ()) a w.coreId WEvent.redrawRequested
      = some (postUpdate ops a ctrl' cam uni, frameTrace buf pl dbg cbg vb ib ni) ∧
    List.filter Cmd.isDraw (frameTrace buf pl dbg cbg vb ib ni)
      = [Cmd.drawIndexed 0 ni 0 0 1] := by
  have hin : App.input ops a WEvent.redrawRequested
      = some ({ a with camera_controller := some ctrl' }, false) := by
    unfold App.input
    rw [hctrl]
    simp [hpe]
  have hupd := update_after_input_eq ops a ctrl' cam uni q buf hcam huni hq hbuf
  have hren := render_ok_eq (postUpdate ops a ctrl' cam uni) s d q pl dbg cbg vb ib ni
    hs hd hq hpl hdbg hcbg hvb hib hni
  rw [hw] at hin hupd
  refine ⟨?_, by simp [frameTrace, Cmd.isDraw]⟩
  simp [App.window_event, hw, hin, hupd, hren, frameTrace, updateTrace]

/-- Witness for C3 at the concrete post-startup state. -/
theorem redraw_frame_sequence_witness :
    App.window_event witOps (Except.ok ()) witApp 17 WEvent.redrawRequested
      = some (postUpdate witOps witApp 13 8 9, frameTrace 10 7 15 11 13 14 36) ∧
    List.filter Cmd.isDraw (frameTrace 10 7 15 11 13 14 36)
      = [Cmd.drawIndexed 0 36 0 0 1] :=
  redraw_frame_sequence witOps witApp ⟨"Voxel Game", (720, 600), 17⟩ 12 13 8 9 3 10
    ⟨1, []⟩ 2 7 15 11 13 14 36 rfl rfl rfl rfl rfl rfl rfl rfl rfl rfl rfl rfl rfl rfl rfl

/-- Counterexample to C3 as stated: on a `RedrawRequested` event whose
surface-texture acquisition times out, the frame performs no indexed draw at
all, so a draw does not follow on every redraw event. -/
theorem redraw_no_draw_on_timeout :
    (App.window_event witOps (Except.error SurfaceError.timeout) witApp 17
        WEvent.redrawRequested).map (fun p => List.filter Cmd.isDraw p.2)
      = some [] := by
  rfl

/-! ## Claim C4 -/

/-- C4: the render-error taxonomy of the redraw handler.  `Lost` and
`Outdated` make the host resize with the last known window size and continue
(the handling changes no state beyond that resize and does not exit);
`OutOfMemory` logs an error and exits the event loop; `Timeout` only logs a
warning, leaving the post-update state untouched. -/
theorem render_error_taxonomy (ops : CameraOps CtrlT CamT UniT)
    (a : App CtrlT CamT UniT) (w : Window) (ctrl ctrl' : CtrlT) (cam : CamT)
    (uni : UniT) (q buf : ℕ) (s : Surface)
    (hw : a.window = some w)
    (hctrl : a.camera_controller = some ctrl)
    (hpe : ops.process_events ctrl WEvent.redrawRequested = (ctrl', false))
    (hcam : a.camera = some cam) (huni : a.camera_uniform = some uni)
    (hq : a.queue = some q) (hbuf : a.camera_buffer = some buf)
    (hs : a.surface = some s) :
    (App.window_event ops (Except.error SurfaceError.lost) a w.coreId
        WEvent.redrawRequested
      = (App.resize (postUpdate ops a ctrl' cam uni) w.size).map
        (fun a3 => (a3, Cmd.offerInput :: Cmd.requestRedraw :: updateTrace buf))) ∧
    (App.window_event ops (Except.error SurfaceError.outdated) a w.coreId
        WEvent.redrawRequested
      = (App.resize (postUpdate ops a ctrl' cam uni) w.size).map
        (fun a3 => (a3, Cmd.offerInput :: Cmd.requestRedraw :: updateTrace buf))) ∧
    (App.window_event ops (Except.error SurfaceError.outOfMemory) a w.coreId
        WEvent.redrawRequested
      = some (postUpdate ops a ctrl' cam uni,
        Cmd.offerInput :: Cmd.requestRedraw ::
          (updateTrace buf ++ [Cmd.logError "Out of memory!", Cmd.exitLoop]))) ∧
    (App.window_event ops (Except.error SurfaceError.timeout) a w.coreId
        WEvent.redrawRequested
      = some (postUpdate ops a ctrl' cam uni,
        Cmd.offerInput :: Cmd.requestRedraw ::
          (updateTrace buf ++ [Cmd.logWarn "Surface Timout!"]))) := by
  have hin : App.input ops a WEvent.redrawRequested
      = some ({ a with camera_controller := some ctrl' }, false) := by
    unfold App.input
    rw [hctrl]
    simp [hpe]
  have hupd := update_after_input_eq ops a ctrl' cam uni q buf hcam huni hq hbuf
  have hrenL := render_error_eq (postUpdate ops a ctrl' cam uni) s SurfaceError.lost hs
  have hrenO := render_error_eq (postUpdate ops a ctrl' cam uni) s SurfaceError.outdated hs
  have hrenM := render_error_eq (postUpdate ops a ctrl' cam uni) s SurfaceError.outOfMemory hs
  have hrenT := render_error_eq (postUpdate ops a ctrl' cam uni) s SurfaceError.timeout hs
  have hwin : (postUpdate ops a ctrl' cam uni).window = some w := hw
  rw [hw] at hin hupd
  refine ⟨?_, ?_, ?_, ?_⟩
  · rcases hres : App.resize (postUpdate ops a ctrl' cam uni) w.size with _ | a3 <;>
      simp [App.window_event, hw, hin, hupd, hrenL, hwin, hres, updateTrace]
  · rcases hres : App.resize (postUpdate ops a ctrl' cam uni) w.size with _ | a3 <;>
      simp [App.window_event, hw, hin, hupd, hrenO, hwin, hres, updateTrace]
  · simp [App.window_event, hw, hin, hupd, hrenM, hwin, updateTrace]
  · simp [App.window_event, hw, hin, hupd, hrenT, hwin, updateTrace]

/-- Witness for C4 at the concrete post-startup state: all four error
reactions, evaluated. -/
theorem render_error_taxonomy_witness :
    (App.window_event witOps (Except.error SurfaceError.lost) witApp 17
        WEvent.redrawRequested
      = (App.resize (postUpdate witOps witApp 13 8 9) (720, 600)).map
        (fun a3 => (a3, Cmd.offerInput :: Cmd.requestRedraw :: updateTrace 10))) ∧
    (App.window_event witOps (Except.error SurfaceError.outdated) witApp 17
        WEvent.redrawRequested
      = (App.resize (postUpdate witOps witApp 13 8 9) (720, 600)).map
        (fun a3 => (a3, Cmd.offerInput :: Cmd.requestRedraw :: updateTrace 10))) ∧
    (App.window_event witOps (Except.error SurfaceError.outOfMemory) witApp 17
        WEvent.redrawRequested
      = some (postUpdate witOps witApp 13 8 9,
        Cmd.offerInput :: Cmd.requestRedraw ::
          (updateTrace 10 ++ [Cmd.logError "Out of memory!", Cmd.exitLoop]))) ∧
    (App.window_event witOps (Except.error SurfaceError.timeout) witApp 17
        WEvent.redrawRequested
      = some (postUpdate witOps witApp 13 8 9,
        Cmd.offerInput :: Cmd.requestRedraw ::
          (updateTrace 10 ++ [Cmd.logWarn "Surface Timout!"]))) :=
  render_error_taxonomy witOps witApp ⟨"Voxel Game", (720, 600), 17⟩ 12 13 8 9 3 10
    ⟨1, []⟩ rfl rfl rfl rfl rfl rfl rfl rfl

/-! ## Claim C5 -/

/-- C5: every event whose window id matches the app window is first offered
to the controller's input handler (its state advances by `process_events`,
and every observable trace begins with the offering); a consumed event is not
processed by any host handler; and exiting the event loop on close-requested
or on an escape key press is performed by the host, only for unconsumed
events. -/
theorem input_routing (ops : CameraOps CtrlT CamT UniT) (a : App CtrlT CamT UniT)
    (w : Window) (ctrl ctrl' : CtrlT) (event : WEvent) (consumed : Bool)
    (hw : a.window = some w) (hctrl : a.camera_controller = some ctrl)
    (hpe : ops.process_events ctrl event = (ctrl', consumed)) :
    (∀ acquire a' tr, App.window_event ops acquire a w.coreId event = some (a', tr) →
      a'.camera_controller = some ctrl' ∧ tr.head? = some Cmd.offerInput) ∧
    (consumed = true → ∀ acquire,
      App.window_event ops acquire a w.coreId event
        = some ({ a with camera_controller := some ctrl' }, [Cmd.offerInput])) ∧
    (consumed = false →
      (event = WEvent.closeRequested ∨
        event = WEvent.keyboardInput KeyState.pressed Key.escape) →
      ∀ acquire, App.window_event ops acquire a w.coreId event
        = some ({ a with camera_controller := some ctrl' }, [Cmd.offerInput, Cmd.exitLoop])) := by
  have hin : App.input ops a event
      = some ({ a with camera_controller := some ctrl' }, consumed) := by
    unfold App.input
    rw [hctrl]
    simp [hpe]
  refine ⟨?_, ?_, ?_⟩
  · intro acquire a' tr h
    unfold App.window_event at h
    rw [hw] at h
    simp only [] at h
    rw [if_pos trivial, hin] at h
    simp only [] at h
    cases consumed
    · rcases event with _ | ⟨ks, k⟩ | ⟨ew, eh⟩ | _ | _
      · simp only [Bool.false_eq_true, if_false, Option.map] at h
        injection h with h1
        injection h1 with h2 h3
        subst h2; subst h3
        exact ⟨rfl, rfl⟩
      · rcases ks <;> rcases k <;>
          simp only [Bool.false_eq_true, if_false, Option.map] at h <;>
          (injection h with h1; injection h1 with h2 h3; subst h2; subst h3) <;>
          exact ⟨rfl, rfl⟩
      · simp only [Bool.false_eq_true, if_false] at h
        rcases hres : App.resize { a with camera_controller := some ctrl' } (ew, eh)
          with _ | a2 <;> rw [hres] at h <;>
          simp only [Option.map] at h
        · exact absurd h (by simp)
        · injection h with h1
          injection h1 with h2 h3
          subst h2; subst h3
          refine ⟨?_, rfl⟩
          rw [resize_controller_eq _ _ _ hres]
      · simp only [Bool.false_eq_true, if_false] at h
        rw [show ({ a with camera_controller := some ctrl' }
            : App CtrlT CamT UniT).window = some w from hw] at h
        simp only [] at h
        rcases hu : App.update ops
            { a with camera_controller := some ctrl', window := some w }
          with _ | ⟨a2, tru⟩ <;> rw [hu] at h <;> try simp only [] at h
        · exact absurd h (by simp [Option.map])
        · have hcc2 : a2.camera_controller = some ctrl' :=
            update_controller_eq ops _ a2 tru hu
          rcases hr : App.render a2 acquire with _ | r <;> rw [hr] at h <;>
            try simp only [] at h
          · exact absurd h (by simp [Option.map])
          · rcases r with e | ⟨a3, tr2⟩
            · rcases e <;> simp only [Option.map] at h
              · injection h with h1
                injection h1 with h2 h3
                subst h2; subst h3
                exact ⟨hcc2, rfl⟩
              · rcases hw2 : a2.window with _ | w2 <;> rw [hw2] at h <;>
                  simp only [Option.map] at h
                · exact absurd h (by simp)
                · rcases hres2 : a2.resize w2.size with _ | a3 <;>
                    rw [hres2] at h <;> simp only [Option.map] at h
                  · exact absurd h (by simp)
                  · injection h with h1
                    injection h1 with h2 h3
                    subst h2; subst h3
                    exact ⟨by rw [resize_controller_eq _ _ _ hres2, hcc2], rfl⟩
              · rcases hw2 : a2.window with _ | w2 <;> rw [hw2] at h <;>
                  simp only [Option.map] at h
                · exact absurd h (by simp)
                · rcases hres2 : a2.resize w2.size with _ | a3 <;>
                    rw [hres2] at h <;> simp only [Option.map] at h
                  · exact absurd h (by simp)
                  · injection h with h1
                    injection h1 with h2 h3
                    subst h2; subst h3
                    exact ⟨by rw [resize_controller_eq _ _ _ hres2, hcc2], rfl⟩
              · injection h with h1
                injection h1 with h2 h3
                subst h2; subst h3
                exact ⟨hcc2, rfl⟩
            · simp only [Option.map] at h
              injection h with h1
              injection h1 with h2 h3
              subst h2; subst h3
              exact ⟨by rw [render_ok_state_eq _ _ _ _ hr, hcc2], rfl⟩
      · simp only [Bool.false_eq_true, if_false, Option.map] at h
        injection h with h1
        injection h1 with h2 h3
        subst h2; subst h3
        exact ⟨rfl, rfl⟩
    · simp only [if_true, Option.map] at h
      injection h with h1
      injection h1 with h2 h3
      subst h2; subst h3
      exact ⟨rfl, rfl⟩
  · intro hc acquire
    subst hc
    simp [App.window_event, hw, hin]
  · intro hc hev acquire
    subst hc
    rcases hev with rfl | rfl <;> simp [App.window_event, hw, hin]

/-- Witness for C5: the concrete controller consumes `otherEvent`, so the
host does nothing further with it, while an unconsumed close request advances
the controller and exits the loop. -/
theorem input_routing_witness :
    (App.window_event witOps (Except.ok ()) witApp 17 WEvent.otherEvent
      = some ({ witApp with camera_controller := some 13 }, [Cmd.offerInput])) ∧
    (App.window_event witOps (Except.ok ()) witApp 17 WEvent.closeRequested
      = some ({ witApp with camera_controller := some 13 },
          [Cmd.offerInput, Cmd.exitLoop])) :=
  ⟨(input_routing witOps witApp ⟨"Voxel Game", (720, 600), 17⟩ 12 13
      WEvent.otherEvent true rfl rfl rfl).2.1 rfl (Except.ok ()),
   (input_routing witOps witApp ⟨"Voxel Game", (720, 600), 17⟩ 12 13
      WEvent.closeRequested false rfl rfl rfl).2.2 rfl (Or.inl rfl) (Except.ok ())⟩

/-! ## Claim C7 -/

/-- C7: the optional-resource lifecycle.  After `init` every resource field
is `None`; `resumed` populates every field; and each later operation (input,
resize, update, render, window-event) succeeds on a fully populated state —
no unwrap panics — and never puts any field back to `None`. -/
theorem optional_resource_lifecycle (ops : CameraOps CtrlT CamT UniT) :
    ((App.init : App CtrlT CamT UniT).surface = none ∧
      (App.init : App CtrlT CamT UniT).device = none ∧
      (App.init : App CtrlT CamT UniT).queue = none ∧
      (App.init : App CtrlT CamT UniT).config = none ∧
      (App.init : App CtrlT CamT UniT).render_pipeline = none ∧
      (App.init : App CtrlT CamT UniT).camera = none ∧
      (App.init : App CtrlT CamT UniT).camera_uniform = none ∧
      (App.init : App CtrlT CamT UniT).camera_buffer = none ∧
      (App.init : App CtrlT CamT UniT).camera_bind_group = none ∧
      (App.init : App CtrlT CamT UniT).camera_controller = none ∧
      (App.init : App CtrlT CamT UniT).vertex_buffer = none ∧
      (App.init : App CtrlT CamT UniT).num_vertices = none ∧
      (App.init : App CtrlT CamT UniT).index_buffer = none ∧
      (App.init : App CtrlT CamT UniT).num_indices = none ∧
      (App.init : App CtrlT CamT UniT).diffuse_bind_group = none ∧
      (App.init : App CtrlT CamT UniT).diffuse_texture = none ∧
      (App.init : App CtrlT CamT UniT).window = none) ∧
    (∀ (a : App CtrlT CamT UniT) (r : Resources CtrlT CamT UniT),
      (a.resumed r).allSome) ∧
    (∀ (a : App CtrlT CamT UniT) ev, a.allSome →
      ∃ p, App.input ops a ev = some p ∧ p.1.allSome) ∧
    (∀ (a : App CtrlT CamT UniT) sz, a.allSome →
      ∃ a2, App.resize a sz = some a2 ∧ a2.allSome) ∧
    (∀ (a : App CtrlT CamT UniT), a.allSome →
      ∃ p, App.update ops a = some p ∧ p.1.allSome) ∧
    (∀ (a : App CtrlT CamT UniT) acq, a.allSome →
      ∃ res, App.render a acq = some res ∧
        ∀ a2 tr, res = Except.ok (a2, tr) → a2.allSome) ∧
    (∀ (a : App CtrlT CamT UniT) wid ev acq, a.allSome →
      ∃ p, App.window_event ops acq a wid ev = some p ∧ p.1.allSome) := by
  have Hresumed : ∀ (a : App CtrlT CamT UniT) (r : Resources CtrlT CamT UniT),
      (a.resumed r).allSome := by
    intro a r
    exact ⟨rfl, rfl, rfl, rfl, rfl, rfl, rfl, rfl, rfl, rfl, rfl, rfl, rfl, rfl,
      rfl, rfl, rfl⟩
  have Hinput : ∀ (a : App CtrlT CamT UniT) ev, a.allSome →
      ∃ p, App.input ops a ev = some p ∧ p.1.allSome := by
    intro a ev hall
    obtain ⟨hsf, hdv, hqu, hcf, hrp, hcm, hcu, hcb, hcg, hcc, hvb, hnv, hib, hni,
      hdb, hdt, hwd⟩ := hall
    obtain ⟨ctrl, hctrl⟩ := Option.isSome_iff_exists.mp hcc
    refine ⟨({ a with camera_controller := some (ops.process_events ctrl ev).1 },
      (ops.process_events ctrl ev).2), ?_, ?_⟩
    · unfold App.input
      rw [hctrl]
    · exact ⟨hsf, hdv, hqu, hcf, hrp, hcm, hcu, hcb, hcg, rfl, hvb, hnv, hib, hni,
        hdb, hdt, hwd⟩
  have Hresize : ∀ (a : App CtrlT CamT UniT) sz, a.allSome →
      ∃ a2, App.resize a sz = some a2 ∧ a2.allSome := by
    intro a sz hall
    obtain ⟨width, height⟩ := sz
    obtain ⟨hsf, hdv, hqu, hcf, hrp, hcm, hcu, hcb, hcg, hcc, hvb, hnv, hib, hni,
      hdb, hdt, hwd⟩ := hall
    by_cases hp : 0 < width ∧ 0 < height
    · obtain ⟨w, hw⟩ := Option.isSome_iff_exists.mp hwd
      obtain ⟨cfg, hcfg⟩ := Option.isSome_iff_exists.mp hcf
      obtain ⟨s, hs⟩ := Option.isSome_iff_exists.mp hsf
      obtain ⟨d, hd⟩ := Option.isSome_iff_exists.mp hdv
      refine ⟨_, resize_positive_eq a w cfg s d width height hp.1 hp.2 hw hcfg hs hd, ?_⟩
      exact ⟨rfl, hdv, hqu, rfl, hrp, hcm, hcu, hcb, hcg, hcc, hvb, hnv, hib, hni,
        hdb, hdt, rfl⟩
    · have hz : width = 0 ∨ height = 0 := by omega
      exact ⟨a, resize_degenerate_eq a (width, height) hz,
        hsf, hdv, hqu, hcf, hrp, hcm, hcu, hcb, hcg, hcc, hvb, hnv, hib, hni,
        hdb, hdt, hwd⟩
  have Hupdate : ∀ (a : App CtrlT CamT UniT), a.allSome →
      ∃ p, App.update ops a = some p ∧ p.1.allSome := by
    intro a hall
    obtain ⟨hsf, hdv, hqu, hcf, hrp, hcm, hcu, hcb, hcg, hcc, hvb, hnv, hib, hni,
      hdb, hdt, hwd⟩ := hall
    obtain ⟨ctrl, hctrl⟩ := Option.isSome_iff_exists.mp hcc
    obtain ⟨cam, hcam⟩ := Option.isSome_iff_exists.mp hcm
    obtain ⟨uni, huni⟩ := Option.isSome_iff_exists.mp hcu
    obtain ⟨q, hq⟩ := Option.isSome_iff_exists.mp hqu
    obtain ⟨buf, hbuf⟩ := Option.isSome_iff_exists.mp hcb
    refine ⟨_, update_eq ops a ctrl cam uni q buf hctrl hcam huni hq hbuf, ?_⟩
    exact ⟨hsf, hdv, hqu, hcf, hrp, rfl, rfl, hcb, hcg, hcc, hvb, hnv, hib, hni,
      hdb, hdt, hwd⟩
  have Hrender : ∀ (a : App CtrlT CamT UniT) acq, a.allSome →
      ∃ res, App.render a acq = some res ∧
        ∀ a2 tr, res = Except.ok (a2, tr) → a2.allSome := by
    intro a acq hall
    have hkeep := hall
    obtain ⟨hsf, hdv, hqu, hcf, hrp, hcm, hcu, hcb, hcg, hcc, hvb, hnv, hib, hni,
      hdb, hdt, hwd⟩ := hall
    obtain ⟨s, hs⟩ := Option.isSome_iff_exists.mp hsf
    rcases acq with e | u
    · refine ⟨Except.error e, render_error_eq a s e hs, ?_⟩
      intro a2 tr hcontra
      exact Except.noConfusion hcontra
    · obtain ⟨d, hd⟩ := Option.isSome_iff_exists.mp hdv
      obtain ⟨q, hq⟩ := Option.isSome_iff_exists.mp hqu
      obtain ⟨pl, hpl⟩ := Option.isSome_iff_exists.mp hrp
      obtain ⟨dbg, hdbg⟩ := Option.isSome_iff_exists.mp hdb
      obtain ⟨cbg, hcbg⟩ := Option.isSome_iff_exists.mp hcg
      obtain ⟨vb, hvb2⟩ := Option.isSome_iff_exists.mp hvb
      obtain ⟨ib, hib2⟩ := Option.isSome_iff_exists.mp hib
      obtain ⟨ni, hni2⟩ := Option.isSome_iff_exists.mp hni
      refine ⟨_, render_ok_eq a s d q pl dbg cbg vb ib ni hs hd hq hpl hdbg hcbg
        hvb2 hib2 hni2, ?_⟩
      intro a2 tr heq
      injection heq with h1
      injection h1 with h2 h3
      subst h2
      exact hkeep
  have Hwe : ∀ (a : App CtrlT CamT UniT) wid ev acq, a.allSome →
      ∃ p, App.window_event ops acq a wid ev = some p ∧ p.1.allSome := by
    intro a wid ev acq hall
    have hkeep := hall
    obtain ⟨hsf, hdv, hqu, hcf, hrp, hcm, hcu, hcb, hcg, hcc, hvb, hnv, hib, hni,
      hdb, hdt, hwd⟩ := hall
    obtain ⟨w, hw⟩ := Option.isSome_iff_exists.mp hwd
    by_cases hid : wid = w.coreId
    · subst hid
      obtain ⟨⟨a1, c⟩, hp0, hp0s⟩ := Hinput a ev hkeep
      unfold App.window_event
      rw [hw]
      simp only []
      rw [if_pos trivial, hp0]
      simp only []
      cases c
      · rcases ev with _ | ⟨ks, k⟩ | ⟨ew, eh⟩ | _ | _
        · exact ⟨_, rfl, hp0s⟩
        · rcases ks <;> rcases k <;> exact ⟨_, rfl, hp0s⟩
        · obtain ⟨a2, hres, ha2⟩ := Hresize a1 (ew, eh) hp0s
          simp only [Bool.false_eq_true, if_false]
          rw [hres]
          exact ⟨_, rfl, ha2⟩
        · simp only [Bool.false_eq_true, if_false]
          obtain ⟨w1, hw1⟩ := Option.isSome_iff_exists.mp
            hp0s.2.2.2.2.2.2.2.2.2.2.2.2.2.2.2.2
          rw [hw1]
          simp only []
          obtain ⟨⟨a2, tru⟩, hu, ha2⟩ := Hupdate a1 hp0s
          rw [hu]
          simp only []
          rcases acq with e | u
          · obtain ⟨s2, hs2⟩ := Option.isSome_iff_exists.mp ha2.1
            rw [render_error_eq a2 s2 e hs2]
            simp only []
            rcases e
            · exact ⟨_, rfl, ha2⟩
            · obtain ⟨w2, hw2⟩ := Option.isSome_iff_exists.mp
                ha2.2.2.2.2.2.2.2.2.2.2.2.2.2.2.2.2
              rw [hw2]
              simp only []
              obtain ⟨a3, hres2, ha3⟩ := Hresize a2 w2.size ha2
              rw [hres2]
              exact ⟨_, rfl, ha3⟩
            · obtain ⟨w2, hw2⟩ := Option.isSome_iff_exists.mp
                ha2.2.2.2.2.2.2.2.2.2.2.2.2.2.2.2.2
              rw [hw2]
              simp only []
              obtain ⟨a3, hres2, ha3⟩ := Hresize a2 w2.size ha2
              rw [hres2]
              exact ⟨_, rfl, ha3⟩
            · exact ⟨_, rfl, ha2⟩
          · have ha2keep := ha2
            obtain ⟨hsf2, hdv2, hqu2, hcf2, hrp2, hcm2, hcu2, hcb2, hcg2, hcc2,
              hvb2, hnv2, hib2, hni2, hdb2, hdt2, hwd2⟩ := ha2
            obtain ⟨s2, hs2⟩ := Option.isSome_iff_exists.mp hsf2
            obtain ⟨d2, hd2⟩ := Option.isSome_iff_exists.mp hdv2
            obtain ⟨q2, hq2⟩ := Option.isSome_iff_exists.mp hqu2
            obtain ⟨pl2, hpl2⟩ := Option.isSome_iff_exists.mp hrp2
            obtain ⟨dbg2, hdbg2⟩ := Option.isSome_iff_exists.mp hdb2
            obtain ⟨cbg2, hcbg2⟩ := Option.isSome_iff_exists.mp hcg2
            obtain ⟨vb2, hvb22⟩ := Option.isSome_iff_exists.mp hvb2
            obtain ⟨ib2, hib22⟩ := Option.isSome_iff_exists.mp hib2
            obtain ⟨ni2, hni22⟩ := Option.isSome_iff_exists.mp hni2
            rw [render_ok_eq a2 s2 d2 q2 pl2 dbg2 cbg2 vb2 ib2 ni2 hs2 hd2 hq2
              hpl2 hdbg2 hcbg2 hvb22 hib22 hni22]
            exact ⟨_, rfl, ha2keep⟩
        · exact ⟨_, rfl, hp0s⟩
      · exact ⟨_, rfl, hp0s⟩
    · refine ⟨(a, []), ?_, hkeep⟩
      unfold App.window_event
      rw [hw]
      simp only []
      rw [if_neg hid]
  exact ⟨⟨rfl, rfl, rfl, rfl, rfl, rfl, rfl, rfl, rfl, rfl, rfl, rfl, rfl, rfl,
    rfl, rfl, rfl⟩, Hresumed, Hinput, Hresize, Hupdate, Hrender, Hwe⟩

/-- Witness for C7: the concrete post-startup state is fully populated and a
redraw window event on it succeeds and stays fully populated. -/
theorem optional_resource_lifecycle_witness :
    witApp.allSome ∧
    ∃ p, App.window_event witOps (Except.ok ()) witApp 17 WEvent.redrawRequested
      = some p ∧ p.1.allSome :=
  ⟨(optional_resource_lifecycle witOps).2.1 App.init witResources,
   (optional_resource_lifecycle witOps).2.2.2.2.2.2 witApp 17
     WEvent.redrawRequested (Except.ok ())
     ((optional_resource_lifecycle witOps).2.1 App.init witResources)⟩

/-! ## Claim C8 -/

theorem render_ok_inversion (a a2 : App CtrlT CamT UniT)
    (acquire : Except SurfaceError Unit) (tr2 : List Cmd)
    (h : App.render a acquire = some (Except.ok (a2, tr2))) :
    ∃ pl dbg cbg vb ib ni, a.render_pipeline = some pl ∧
      a.diffuse_bind_group = some dbg ∧ a.camera_bind_group = some cbg ∧
      a.vertex_buffer = some vb ∧ a.index_buffer = some ib ∧
      a.num_indices = some ni ∧ a2 = a ∧
      tr2 = [Cmd.setPipeline pl, Cmd.setBindGroup 0 dbg, Cmd.setBindGroup 1 cbg,
        Cmd.setVertexBuffer 0 vb, Cmd.setIndexBuffer ib IndexFormat.uint16,
        Cmd.drawIndexed 0 ni 0 0 1, Cmd.submit, Cmd.present] := by
  unfold App.render at h
  rcases hs : a.surface with _ | s <;> rw [hs] at h
  · exact absurd h (by simp)
  · rcases acquire with e | u
    · simp at h
    · rcases hd : a.device with _ | d <;> rw [hd] at h
      · exact absurd h (by simp)
      · rcases hpl : a.render_pipeline with _ | pl <;>
          rcases hdbg : a.diffuse_bind_group with _ | dbg <;>
          rw [hpl, hdbg] at h <;> simp only [] at h
        · exact absurd h (by simp)
        · exact absurd h (by simp)
        · exact absurd h (by simp)
        · rcases hcbg : a.camera_bind_group with _ | cbg <;>
            rcases hvb : a.vertex_buffer with _ | vb <;>
            rcases hib : a.index_buffer with _ | ib <;>
            rcases hni : a.num_indices with _ | ni <;>
            rw [hcbg, hvb, hib, hni] at h <;> simp only [] at h <;>
            first
              | (rcases hq : a.queue with _ | q <;> rw [hq] at h <;>
                  simp only [] at h <;>
                  first
                    | (injection h with h1; injection h1 with h2;
                       injection h2 with h3 h4; subst h3; subst h4;
                       exact ⟨pl, dbg, cbg, vb, ib, ni, rfl, rfl, rfl, rfl,
                         rfl, rfl, rfl, rfl⟩)
                    | exact Option.noConfusion h)
              | exact Option.noConfusion h

/-- C8: the GPU mesh layout.  `Vertex::desc()` has stride 20 bytes with a
3×float32 position at offset 0 (location 0) followed by a 2×float32
tex-coords at offset 12 (location 1); every index fits in 16 bits; and every
successful render binds the index buffer with — and only with — the 16-bit
index format. -/
theorem vertex_and_index_layout :
    Vertex.desc.array_stride = 20 ∧
    Vertex.desc.step_mode = VertexStepMode.vertex ∧
    Vertex.desc.attributes
      = [⟨VertexFormat.float32x3, 0, 0⟩, ⟨VertexFormat.float32x2, 12, 1⟩] ∧
    (∀ i ∈ INDICES, i < 2 ^ 16) ∧
    (∀ (a a2 : App CtrlT CamT UniT) acquire tr2 ib,
      a.index_buffer = some ib →
      App.render a acquire = some (Except.ok (a2, tr2)) →
      Cmd.setIndexBuffer ib IndexFormat.uint16 ∈ tr2 ∧
      ∀ b fmt, Cmd.setIndexBuffer b fmt ∈ tr2 → fmt = IndexFormat.uint16) := by
  refine ⟨rfl, rfl, rfl, by decide, ?_⟩
  intro a a2 acquire tr2 ib hib h
  obtain ⟨pl, dbg, cbg, vb, ib', ni, hpl, hdbg, hcbg, hvb, hib', hni, rfl, rfl⟩ :=
    render_ok_inversion a a2 acquire tr2 h
  rw [hib] at hib'
  obtain rfl := Option.some.inj hib'
  constructor
  · simp
  · intro b fmt hmem
    simp at hmem
    exact hmem.2

/-- Witness for C8 at the concrete post-startup state. -/
theorem vertex_and_index_layout_witness :
    Cmd.setIndexBuffer 14 IndexFormat.uint16
      ∈ [Cmd.setPipeline 7, Cmd.setBindGroup 0 15, Cmd.setBindGroup 1 11,
         Cmd.setVertexBuffer 0 13, Cmd.setIndexBuffer 14 IndexFormat.uint16,
         Cmd.drawIndexed 0 36 0 0 1, Cmd.submit, Cmd.present] ∧
    ∀ b fmt, Cmd.setIndexBuffer b fmt
        ∈ [Cmd.setPipeline 7, Cmd.setBindGroup 0 15, Cmd.setBindGroup 1 11,
           Cmd.setVertexBuffer 0 13, Cmd.setIndexBuffer 14 IndexFormat.uint16,
           Cmd.drawIndexed 0 36 0 0 1, Cmd.submit, Cmd.present] →
      fmt = IndexFormat.uint16 :=
  vertex_and_index_layout.2.2.2.2 witApp witApp (Except.ok ())
    [Cmd.setPipeline 7, Cmd.setBindGroup 0 15, Cmd.setBindGroup 1 11,
     Cmd.setVertexBuffer 0 13, Cmd.setIndexBuffer 14 IndexFormat.uint16,
     Cmd.drawIndexed 0 36 0 0 1, Cmd.submit, Cmd.present] 14 rfl rfl

end VoxelGame
